import Mathlib

/-!
Verification development for the content-retrieval / summarization / translation
pipeline of `streamlit_app.py`.

The Python source is shallowly embedded: pure string manipulation is translated
into executable Lean functions over `String` / `List Char`, the mutable
Streamlit session state becomes an explicit state record threaded through
`perform_translation`, the `functools.lru_cache` wrapper around
`fetch_url_text` becomes an explicit most-recently-used-first association list,
and every external effect (HTTP GET + response parsing by `requests` /
`BeautifulSoup` / `PyPDF2`, and the Gemini `generate_content` call) becomes an
oracle parameter.  Python exceptions raised by those libraries are modelled as
`Except` / `Option` failure values carrying the exception message.  Each
embedded function counts how many times it invoked its oracle, so "no network
I/O" and "the model is never invoked" are provable statements.
-/

/-- Flat string-keyed dictionary, the shape of the UI-string maps
(`UI_STRINGS_EN` and its translations).  Python dicts preserve insertion
order, so an association list is the faithful representation. -/
abbrev StringMap := List (String × String)

/-! ## Python string primitives

The embedding uses small executable counterparts of the Python string
operations appearing in the source (`startswith`, `endswith`, `lower`,
`in`, `join`, `split`, slicing).  They are defined over `List Char`
(Python strings index by character) so that concrete instances reduce in
the kernel. -/

/-- Python `s.startswith(pre)`. -/
def pyStartsWith (s pre : String) : Bool :=
  pre.data.isPrefixOf s.data

/-- Python `s.endswith(suf)`. -/
def pyEndsWith (s suf : String) : Bool :=
  suf.data.reverse.isPrefixOf s.data.reverse

/-- Python `s.lower()` (ASCII-adequate for the content-type strings used). -/
def pyLower (s : String) : String :=
  String.mk (s.data.map Char.toLower)

/-- Python `needle in hay` substring test. -/
def pyIn (needle hay : String) : Bool :=
  hay.data.tails.any (fun t => needle.data.isPrefixOf t)

/-- Python `sep.join(parts)`. -/
def pyJoin (sep : String) : List String → String
  | [] => ""
  | [s] => s
  | s :: rest => s ++ sep ++ pyJoin sep rest

/-- Fuel-driven scanner behind `pySplitString`; the fuel is always at least
the input length plus one, so it never runs out. -/
def pySplitAux (sep : List Char) : Nat → List Char → List (List Char)
  | _, [] => [[]]
  | 0, l => [l]
  | fuel + 1, c :: cs =>
    if sep.isPrefixOf (c :: cs) then
      [] :: pySplitAux sep fuel ((c :: cs).drop sep.length)
    else
      match pySplitAux sep fuel cs with
      | [] => [[c]]
      | h :: t => (c :: h) :: t

/-- Python `s.split(sep)` for a non-empty separator (e.g. `text.split(': ')`).
`"".split(sep)` is `[""]`, matching Python. -/
def pySplitString (sep s : String) : List String :=
  (pySplitAux sep.data (s.data.length + 1) s.data).map String.mk

/-- Fuel-driven scanner behind `pySplitWsWords`. -/
def pyWordsAux : Nat → List Char → List (List Char)
  | 0, _ => []
  | _, [] => []
  | fuel + 1, c :: cs =>
    if c.isWhitespace then pyWordsAux fuel cs
    else (c :: cs.takeWhile (fun x => !x.isWhitespace)) ::
      pyWordsAux fuel (cs.dropWhile (fun x => !x.isWhitespace))

/-- Python `s.split()` (no argument): split on whitespace runs, dropping
empty fields. -/
def pySplitWsWords (s : String) : List String :=
  (pyWordsAux (s.data.length + 1) s.data).map String.mk

/-! ## Content fetching and extraction (`fetch_url_text`, lines 362-387)

`requests.get` plus the library-side parsing is the network oracle: for each
URL it either raises (`NetResult.exn`, the `requests.exceptions.RequestException`
branch, message included) or yields a response carrying the `Content-Type`
header, the `PyPDF2` page-extraction outcome for the body bytes
(`Except`-failure = parser exception) and the `BeautifulSoup` outcome
(visible body text after `script`/`style` removal, `Except`-failure = parse
exception).  Everything the Python function itself does to those values —
branch selection, page joining, whitespace collapsing, truncation, error
formatting — is embedded directly. -/

/-- Outcome of the network call and library-side decoding for one URL. -/
inductive NetResult where
  | exn (msg : String)
  | resp (contentType : String) (pdfPages : Except String (List String))
      (htmlBody : Except String String)

/-- Branch test of `fetch_url_text`:
`"pdf" in content_type or url.lower().endswith(".pdf")` where
`content_type = r.headers.get("Content-Type", "").lower()`. -/
def is_pdf_branch (contentType url : String) : Bool :=
  pyIn "pdf" (pyLower contentType) || pyEndsWith (pyLower url) ".pdf"

/-- HTML branch body: `" ".join(soup.body.get_text(...).split())[:25000]`. -/
def html_clean (body : String) : String :=
  String.mk ((pyJoin " " (pySplitWsWords body)).data.take 25000)

/-- Embedding of `fetch_url_text` (minus its `lru_cache` wrapper, which is
`getOrFetch` below): dispatch on network failure, then on the PDF test;
the PDF branch is `"\n".join(p.extract_text() for p in reader.pages if
p.extract_text())`, the HTML branch collapses whitespace and truncates. -/
def fetch_url_text (net : String → NetResult) (url : String) : String :=
  match net url with
  | .exn e => "ERROR_FETCH: " ++ e
  | .resp ct pdfPages htmlBody =>
    if is_pdf_branch ct url then
      match pdfPages with
      | .ok pages => pyJoin "\n" (pages.filter (fun p => p ≠ ""))
      | .error e => "ERROR_PDF_PARSE: " ++ e
    else
      match htmlBody with
      | .ok body => html_clean body
      | .error e => "ERROR_HTML_PARSE: " ++ e

/-- State of `@lru_cache(maxsize=128)` on `fetch_url_text`: association list,
most recently used first. -/
abbrev FetchCache := List (String × String)

/-- The cached fetch operation: on a hit the entry moves to the front and no
network call happens; on a miss `fetch_url_text` runs once, the result
(success or error string alike) is inserted in front, and the
least-recently-used entry is dropped if the capacity of 128 is exceeded.
The third component counts network invocations (0 or 1). -/
def getOrFetch (net : String → NetResult) (url : String) (cache : FetchCache) :
    String × FetchCache × Nat :=
  match cache.lookup url with
  | some r => (r, (url, r) :: cache.eraseP (fun kv => kv.1 == url), 0)
  | none =>
    let r := fetch_url_text net url
    (r, ((url, r) :: cache).take 128, 1)

/-! ## Claim C1 -/

/-- C1: calling the cached fetch twice in a row for the same URL returns
bit-identical results and the second call performs no network I/O, for every
network behaviour and every starting cache — in particular also when the
first result is an error string, as witnessed by the concrete timed-out
fetch in the second conjunct, whose error result is served from the cache
with zero network invocations on the repeat call. -/
theorem C1_cached_fetch_idempotent :
    (∀ (net : String → NetResult) (url : String) (cache : FetchCache),
      (getOrFetch net url (getOrFetch net url cache).2.1).1 =
        (getOrFetch net url cache).1 ∧
      (getOrFetch net url (getOrFetch net url cache).2.1).2.2 = 0) ∧
    ((getOrFetch (fun _ => NetResult.exn "timeout") "https://x" []).1 =
        "ERROR_FETCH: timeout" ∧
      (getOrFetch (fun _ => NetResult.exn "timeout") "https://x"
          (getOrFetch (fun _ => NetResult.exn "timeout") "https://x" []).2.1).1 =
        "ERROR_FETCH: timeout" ∧
      (getOrFetch (fun _ => NetResult.exn "timeout") "https://x"
          (getOrFetch (fun _ => NetResult.exn "timeout") "https://x" []).2.1).2.2 = 0) := by
  constructor
  · intro net url cache
    cases h : cache.lookup url with
    | some r =>
      simp only [getOrFetch, h, List.lookup]
      simp
    | none =>
      simp only [getOrFetch, h]
      have htake : ((url, fetch_url_text net url) :: cache).take 128 =
          (url, fetch_url_text net url) :: cache.take 127 := rfl
      simp only [htake, List.lookup]
      simp
  · refine ⟨rfl, ?_, ?_⟩ <;> rfl

/-! ## JSON extraction (`extract_json_from_text`, lines 121-126, and the
array analogue inside `translate_list_via_gemini`, lines 160-164)

`json.loads` is an external library call; it is modelled by an executable
parser `json_loads_obj` restricted to the JSON fragment the translation
pipeline exchanges — a single flat object whose keys and values are string
literals without escape sequences (resp. `json_loads_arr` for a flat array
of such strings) — with `none` modelling a raised `JSONDecodeError`, which
includes trailing data after the value.  `find` / `rfind` / slicing are
embedded directly. -/

/-- Python `text.find(c)` for a single character (`none` = `-1`). -/
def findChar (c : Char) : List Char → Option Nat
  | [] => none
  | x :: xs => if x = c then some 0 else (findChar c xs).map (· + 1)

/-- Python `text.rfind(c)` for a single character (`none` = `-1`). -/
def rfindChar (c : Char) (l : List Char) : Option Nat :=
  (findChar c l.reverse).map (fun i => l.length - 1 - i)

/-- Whitespace skipping inside the `json.loads` model. -/
def skipWs : List Char → List Char
  | c :: cs => if c.isWhitespace then skipWs cs else c :: cs
  | [] => []

/-- JSON string literal (no escape sequences): `"…"`. -/
def parseJString : List Char → Option (String × List Char)
  | '"' :: cs =>
    match cs.dropWhile (fun x => x ≠ '"') with
    | '"' :: rest => some (String.mk (cs.takeWhile (fun x => x ≠ '"')), rest)
    | _ => none
  | _ => none

/-- Comma-separated `"key": "value"` members of a flat JSON object. -/
def parseMembers : Nat → List Char → Option (StringMap × List Char)
  | 0, _ => none
  | fuel + 1, l =>
    match parseJString (skipWs l) with
    | none => none
    | some (k, r1) =>
      match skipWs r1 with
      | ':' :: r2 =>
        match parseJString (skipWs r2) with
        | none => none
        | some (v, r3) =>
          match skipWs r3 with
          | ',' :: r4 =>
            match parseMembers fuel r4 with
            | some (rest, r5) => some ((k, v) :: rest, r5)
            | none => none
          | r4 => some ([(k, v)], r4)
      | _ => none

/-- Model of `json.loads` on an object span: succeeds exactly on one flat
string-to-string object followed by nothing but whitespace. -/
def json_loads_obj (l : List Char) : Option StringMap :=
  match skipWs l with
  | '{' :: r =>
    match skipWs r with
    | '}' :: r2 => if skipWs r2 = [] then some [] else none
    | _ =>
      match parseMembers (l.length + 1) r with
      | some (m, r2) =>
        match skipWs r2 with
        | '}' :: r3 => if skipWs r3 = [] then some m else none
        | _ => none
      | none => none
  | _ => none

/-- Comma-separated string elements of a flat JSON array. -/
def parseElems : Nat → List Char → Option (List String × List Char)
  | 0, _ => none
  | fuel + 1, l =>
    match parseJString (skipWs l) with
    | none => none
    | some (s, r1) =>
      match skipWs r1 with
      | ',' :: r2 =>
        match parseElems fuel r2 with
        | some (rest, r3) => some (s :: rest, r3)
        | none => none
      | r2 => some ([s], r2)

/-- Model of `json.loads` on an array span: succeeds exactly on one flat
array of string literals followed by nothing but whitespace. -/
def json_loads_arr (l : List Char) : Option (List String) :=
  match skipWs l with
  | '[' :: r =>
    match skipWs r with
    | ']' :: r2 => if skipWs r2 = [] then some [] else none
    | _ =>
      match parseElems (l.length + 1) r with
      | some (es, r2) =>
        match skipWs r2 with
        | ']' :: r3 => if skipWs r3 = [] then some es else none
        | _ => none
      | none => none
  | _ => none

/-- Embedding of `extract_json_from_text`: `start = text.find('{')`,
`end = text.rfind('}')`, raise if either is `-1`, else
`json.loads(text[start:end+1])`. -/
def extract_json_from_text (text : List Char) : Option StringMap :=
  match findChar '{' text, rfindChar '}' text with
  | some s, some e => json_loads_obj ((text.take (e + 1)).drop s)
  | _, _ => none

/-- Array analogue used by `translate_list_via_gemini`:
`start = resp.text.find('[')`, `end = resp.text.rfind(']')`, raise if either
is `-1`, else `json.loads(resp.text[start:end+1])`. -/
def extract_json_array (text : List Char) : Option (List String) :=
  match findChar '[' text, rfindChar ']' text with
  | some s, some e => json_loads_arr ((text.take (e + 1)).drop s)
  | _, _ => none

/-- Scanner for `firstBalancedSpan`: depth-counting collection of the span
opened by a leading brace. -/
def balancedSpanAux : Nat → List Char → Option (List Char)
  | _, [] => none
  | d, c :: cs =>
    if c = '{' then (balancedSpanAux (d + 1) cs).map (c :: ·)
    else if c = '}' then
      if d = 1 then some [c]
      else if d = 0 then none
      else (balancedSpanAux (d - 1) cs).map (c :: ·)
    else (balancedSpanAux d cs).map (c :: ·)

/-- Modelled from the spec's words, for comparison with
`extract_json_from_text` (the definition taken from the source): the spec
describes the parser as "locating the first balanced `{...}` span in the
returned text" and parsing that span.  This function returns the first
balanced brace span. -/
def firstBalancedSpan (l : List Char) : Option (List Char) :=
  match l.dropWhile (fun c => c ≠ '{') with
  | [] => none
  | s => balancedSpanAux 0 s

/-! ## Translation service and cache (lines 35-59, 128-206) -/

/-- The English UI dictionary `UI_STRINGS_EN` (lines 35-52). -/
def UI_STRINGS_EN : StringMap :=
  [("title", "Simplified Knowledge"),
   ("description", "A dynamic dashboard that summarizes NASA bioscience publications and explores impacts and results."),
   ("upload_label", "Upload CSV data"),
   ("ask_label", "Ask anything:"),
   ("response_label", "Response:"),
   ("click_button", "Click here, nothing happens"),
   ("translate_dataset_checkbox", "Translate dataset column names (may take time)"),
   ("mention_label", "Official NASA Website"),
   ("button_response", "Hooray"),
   ("pdf_upload_header", "Upload PDFs to Summarize"),
   ("pdf_success", "✅ {count} PDF(s) uploaded and summarized"),
   ("pdf_summary_title", "📄 Summary: {name}"),
   ("search_label", "Search publications..."),
   ("results_header", "Found {count} matching publications:"),
   ("no_results", "No matching publications found."),
   ("summarize_button", "🔬 Gather & Summarize")]

/-- Model of `json.dumps` on a flat string map (no escaping, which is exact
for the strings the app passes). -/
def pyDumps (m : StringMap) : String :=
  "\x7b" ++ pyJoin ", " (m.map (fun kv => "\"" ++ kv.1 ++ "\": \"" ++ kv.2 ++ "\"")) ++ "\x7d"

/-- Model of `json.dumps` on a list of strings. -/
def pyDumpsList (items : List String) : String :=
  "[" ++ pyJoin ", " (items.map (fun s => "\"" ++ s ++ "\"")) ++ "]"

/-- The prompt built by `translate_dict_via_gemini` (lines 136-140). -/
def dict_prompt (source_dict : StringMap) (target_lang_name : String) : String :=
  "Translate the VALUES of the following JSON object into " ++ target_lang_name ++
  ".\nReturn ONLY a JSON object with the same keys and translated values (no commentary).\nInput JSON:\n" ++
  pyDumps source_dict ++ "\n"

/-- The prompt built by `translate_list_via_gemini` (lines 154-157). -/
def list_prompt (items : List String) (target_lang_name : String) : String :=
  "Translate this list of short strings into " ++ target_lang_name ++
  ". Return a JSON array of translated strings in the same order.\nInput: " ++
  pyDumpsList items ++ "\n"

/-- Embedding of `translate_dict_via_gemini`: invoke the generative-text
oracle (`none` models a raised transport/model exception) on the prompt
and pass the raw response text to `extract_json_from_text`; any failure
re-raises (`none`).  Note that the parsed object is returned as-is — the
function performs no validation of its key set. -/
def translate_dict_via_gemini (gemini : String → Option String)
    (source_dict : StringMap) (target_lang_name : String) : Option StringMap :=
  match gemini (dict_prompt source_dict target_lang_name) with
  | none => none
  | some raw => extract_json_from_text raw.data

/-- Embedding of `translate_list_via_gemini`: invoke the oracle, slice the
response from the first `[` to the last `]`, parse; failures re-raise. -/
def translate_list_via_gemini (gemini : String → Option String)
    (items : List String) (target_lang_name : String) : Option (List String) :=
  match gemini (list_prompt items target_lang_name) with
  | none => none
  | some raw => extract_json_array raw.data

/-- The slice of `st.session_state` that `perform_translation` reads and
writes: `current_lang`, the `translations` cache (an association list,
Python dict insertion order), and `translated_strings`. -/
structure TransState where
  current_lang : String
  translations : List (String × StringMap)
  translated_strings : StringMap

/-- Initial session state (lines 54-59): current language English, the
translation cache holding only the English entry. -/
def initTransState : TransState :=
  { current_lang := "English",
    translations := [("English", UI_STRINGS_EN)],
    translated_strings := UI_STRINGS_EN }

/-- Embedding of `perform_translation`.  The Python control flow
(early-return fast path when `lang_choice == current_lang and lang_choice in
translations`, then inside `try`: cache hit, else Gemini call and store;
`except`: warn and fall back to English) is restructured as one match on the
cache lookup: when the entry exists, the fast path and the try-block hit
differ only in whether `current_lang` is (re)assigned — a no-op in the fast
path since there `lang_choice` already equals `current_lang`.  The animation,
spinner and sleep are pure UI effects and are dropped.  The last component
counts Gemini invocations. -/
def perform_translation (gemini : String → Option String) (lang_choice : String)
    (st : TransState) : StringMap × TransState × Nat :=
  match st.translations.lookup lang_choice with
  | some ts =>
    if lang_choice == st.current_lang then
      (ts, { st with translated_strings := ts }, 0)
    else
      (ts, { st with current_lang := lang_choice, translated_strings := ts }, 0)
  | none =>
    match translate_dict_via_gemini gemini
        ((st.translations.lookup "English").getD UI_STRINGS_EN) lang_choice with
    | some d =>
      (d, { st with
              current_lang := lang_choice
              translated_strings := d
              translations := st.translations ++ [(lang_choice, d)] }, 1)
    | none =>
      let base := (st.translations.lookup "English").getD UI_STRINGS_EN
      (base, { st with current_lang := "English", translated_strings := base }, 1)

/-- Embedding of the dataset-column translation in `search_page`
(lines 474-477): try `translate_list_via_gemini`; on any exception fall back
to `[f"Translated_{item}" for item in original_cols]`. -/
def translate_columns (gemini : String → Option String) (original_cols : List String)
    (lang : String) : List String :=
  match translate_list_via_gemini gemini original_cols lang with
  | some translated_cols => translated_cols
  | none => original_cols.map (fun item => "Translated_" ++ item)

/-! ## Summarizer (`summarize_text_with_gemini`, lines 389-400) and the
summary-cache keys in `search_page` -/

/-- The prompt built by `summarize_text_with_gemini` (line 393). -/
def summary_prompt (text : String) : String :=
  "Summarize this NASA bioscience paper. Output in clean Markdown with a level 3 heading (###) titled 'Key Findings' (using bullet points) and a level 3 heading (###) titled 'Overview Summary' (using a paragraph).\n\nContent:\n" ++ text

/-- Embedding of `summarize_text_with_gemini`: if the text is empty or
starts with `ERROR`, short-circuit to the content-error message built from
`text.split(': ')[-1]`; otherwise call the generative-text oracle (whose
`Except.error` models a raised exception, caught and rendered as
`ERROR_GEMINI: …`).  The second component counts Gemini invocations. -/
def summarize_text_with_gemini (gemini : String → Except String String)
    (text : String) : String × Nat :=
  if text == "" || pyStartsWith text "ERROR" then
    ("Could not summarize due to a content error: " ++
      ((pySplitString ": " text).getLastD ""), 0)
  else
    match gemini (summary_prompt text) with
    | .ok response => (response, 1)
    | .error e => ("ERROR_GEMINI: " ++ e, 1)

/-- A catalog row as the display loop sees it (title and link columns). -/
structure CatalogRow where
  title : String
  link : String
deriving DecidableEq

/-- Summary-cache key for a catalog row (line 527): `f"summary_{idx}"`,
where `idx` is the row's index in the filtered `results_df`; the row's own
content does not enter the key. -/
def summary_key (idx : Nat) (_row : CatalogRow) : String :=
  "summary_" ++ toString idx

/-- Summary-cache key for an uploaded PDF (line 485):
`f"pdf_summary_{uploaded_file.name}"`. -/
def pdf_summary_key (name : String) : String :=
  "pdf_summary_" ++ name

/-- The failure test of the display path (line 560):
`summary_content.startswith("ERROR") or summary_content.startswith("CRITICAL_ERROR")`. -/
def is_failure_display (summary_content : String) : Bool :=
  pyStartsWith summary_content "ERROR" || pyStartsWith summary_content "CRITICAL_ERROR"

/-! ## Shared lemmas -/

/-- Lookup in an appended association list is unchanged for keys bound on
the left. -/
theorem lookup_append_left {α β : Type} [BEq α] (k : α) (xs ys : List (α × β))
    (v : β) (h : xs.lookup k = some v) : (xs ++ ys).lookup k = some v := by
  induction xs with
  | nil => simp [List.lookup] at h
  | cons p t ih =>
    obtain ⟨a, b⟩ := p
    rw [List.cons_append]
    simp only [List.lookup] at h ⊢
    cases hk : (k == a) with
    | true => rw [hk] at h; exact h
    | false => rw [hk] at h; exact ih h

/-- Lookup in an appended association list falls through to the right for
keys unbound on the left. -/
theorem lookup_append_right {α β : Type} [BEq α] (k : α) (xs ys : List (α × β))
    (h : xs.lookup k = none) : (xs ++ ys).lookup k = ys.lookup k := by
  induction xs with
  | nil => simp
  | cons p t ih =>
    obtain ⟨a, b⟩ := p
    rw [List.cons_append]
    simp only [List.lookup] at h ⊢
    cases hk : (k == a) with
    | true => rw [hk] at h; exact absurd h (by simp)
    | false => rw [hk] at h; exact ih h

/-- The guard of `summarize_text_with_gemini` fires exactly on empty or
`ERROR`-tagged input and yields the content-error message with zero model
calls. -/
theorem summarize_short_circuit_eq (gemini : String → Except String String)
    (text : String) (h : text = "" ∨ pyStartsWith text "ERROR" = true) :
    summarize_text_with_gemini gemini text =
      ("Could not summarize due to a content error: " ++
        ((pySplitString ": " text).getLastD ""), 0) := by
  unfold summarize_text_with_gemini
  have hg : (text == "" || pyStartsWith text "ERROR") = true := by
    rcases h with h | h
    · subst h; simp
    · simp [h]
  rw [hg]
  simp

/-- A prefix test on an appended list only sees the left part when the
candidate prefix is no longer than it. -/
theorem isPrefixOf_append_of_le (p a b : List Char) (h : p.length ≤ a.length) :
    p.isPrefixOf (a ++ b) = p.isPrefixOf a := by
  induction p generalizing a with
  | nil => simp [List.isPrefixOf]
  | cons c cs ih =>
    cases a with
    | nil => simp at h
    | cons x xs =>
      simp only [List.cons_append, List.isPrefixOf, List.append_eq]
      rw [ih xs (by simpa using h)]

/-! ## Claims C3, C10 -/

/-- C3: for every generative-text behaviour, `summarize_text_with_gemini`
applied to the empty string or to any text starting with `ERROR` (e.g. the
propagated upstream sentinel `ERROR_FETCH: timeout`) short-circuits to the
content-error message carrying the original detail (`text.split(': ')[-1]`)
and performs zero model invocations.  The source has a single summary style
(the markdown prompt), so the style quantification of the claim is over
that one style. -/
theorem C3_summarize_short_circuit :
    ∀ (gemini : String → Except String String) (text : String),
      text = "" ∨ pyStartsWith text "ERROR" = true →
      summarize_text_with_gemini gemini text =
        ("Could not summarize due to a content error: " ++
          ((pySplitString ": " text).getLastD ""), 0) :=
  fun gemini text h => summarize_short_circuit_eq gemini text h

/-- Witness for C3 at the concrete upstream error of the spec's example. -/
theorem C3_summarize_short_circuit_witness :
    pyStartsWith "ERROR_FETCH: timeout" "ERROR" = true ∧
    summarize_text_with_gemini (fun _ => Except.ok "SUMMARY") "ERROR_FETCH: timeout" =
      ("Could not summarize due to a content error: " ++
        ((pySplitString ": " "ERROR_FETCH: timeout").getLastD ""), 0) :=
  ⟨by decide, C3_summarize_short_circuit _ _ (Or.inr (by decide))⟩

/-- C10: the short-circuit result of `summarize_text_with_gemini` on empty
or `ERROR`-tagged input is a plain message that starts with neither `ERROR`
nor `CRITICAL_ERROR`, so the display path's failure test (line 560)
classifies it as a successful summary. -/
theorem C10_short_circuit_classified_success :
    ∀ (gemini : String → Except String String) (text : String),
      text = "" ∨ pyStartsWith text "ERROR" = true →
      is_failure_display (summarize_text_with_gemini gemini text).1 = false := by
  intro g text h
  rw [summarize_short_circuit_eq g text h]
  unfold is_failure_display pyStartsWith
  rw [String.data_append]
  rw [isPrefixOf_append_of_le _ _ _ (by decide),
    isPrefixOf_append_of_le _ _ _ (by decide)]
  decide

/-- Witness for C10 at the empty input. -/
theorem C10_short_circuit_classified_success_witness :
    is_failure_display
      (summarize_text_with_gemini (fun _ => Except.ok "SUMMARY") "").1 = false :=
  C10_short_circuit_classified_success _ "" (Or.inl rfl)

/-! ## Claims C4, C9, C2 -/

/-- C4: requesting the base language is the identity — for every generative
oracle and every session state whose cache binds `"English"` to the
untranslated source (true of the initial state and preserved forever, since
`perform_translation` only ever appends entries for absent languages),
`perform_translation "English"` returns the untranslated `UI_STRINGS_EN`
and invokes the generative-text capability zero times. -/
theorem C4_base_language_identity :
    ∀ (gemini : String → Option String) (st : TransState),
      st.translations.lookup "English" = some UI_STRINGS_EN →
      (perform_translation gemini "English" st).1 = UI_STRINGS_EN ∧
      (perform_translation gemini "English" st).2.2 = 0 := by
  intro g st h
  unfold perform_translation
  rw [h]
  dsimp only
  split <;> simp

/-- Witness for C4 at the initial session state. -/
theorem C4_base_language_identity_witness :
    initTransState.translations.lookup "English" = some UI_STRINGS_EN ∧
    ((perform_translation (fun _ => some "IGNORED") "English" initTransState).1 =
        UI_STRINGS_EN ∧
      (perform_translation (fun _ => some "IGNORED") "English" initTransState).2.2 = 0) :=
  ⟨rfl, C4_base_language_identity _ _ rfl⟩

/-- C9: the translation cache stores only successful translations and never
evicts: any language already bound in the cache is, after any
`perform_translation` call whatsoever, still bound to the same value
(entries are never removed or replaced), and requesting that language
returns the stored value with zero generative-text invocations. -/
theorem C9_translation_cache_persistent :
    ∀ (gemini : String → Option String) (lang l : String) (st : TransState)
      (v : StringMap),
      st.translations.lookup l = some v →
      (perform_translation gemini lang st).2.1.translations.lookup l = some v ∧
      (lang = l →
        (perform_translation gemini lang st).1 = v ∧
        (perform_translation gemini lang st).2.2 = 0) := by
  intro g lang l st v h
  constructor
  · unfold perform_translation
    cases hl : st.translations.lookup lang with
    | some ts => dsimp only; split <;> exact h
    | none =>
      dsimp only
      cases ht : translate_dict_via_gemini g
          ((st.translations.lookup "English").getD UI_STRINGS_EN) lang with
      | some d => exact lookup_append_left _ _ _ _ h
      | none => exact h
  · intro he
    subst he
    unfold perform_translation
    rw [h]
    dsimp only
    split <;> simp

/-- Witness for C9 at a state holding a stored Spanish translation. -/
theorem C9_translation_cache_persistent_witness :
    (perform_translation (fun _ => none) "Español"
        { current_lang := "English",
          translations := [("English", UI_STRINGS_EN), ("Español", [("title", "Conocimiento")])],
          translated_strings := UI_STRINGS_EN }).2.1.translations.lookup "Español" =
      some [("title", "Conocimiento")] ∧
    ((perform_translation (fun _ => none) "Español"
        { current_lang := "English",
          translations := [("English", UI_STRINGS_EN), ("Español", [("title", "Conocimiento")])],
          translated_strings := UI_STRINGS_EN }).1 = [("title", "Conocimiento")] ∧
      (perform_translation (fun _ => none) "Español"
        { current_lang := "English",
          translations := [("English", UI_STRINGS_EN), ("Español", [("title", "Conocimiento")])],
          translated_strings := UI_STRINGS_EN }).2.2 = 0) := by
  have h := C9_translation_cache_persistent (fun _ => none) "Español" "Español"
    { current_lang := "English",
      translations := [("English", UI_STRINGS_EN), ("Español", [("title", "Conocimiento")])],
      translated_strings := UI_STRINGS_EN } [("title", "Conocimiento")] (by decide)
  exact ⟨h.1, h.2 rfl⟩

/-- C2 counterexample: the claim says a translation whose key set differs
from the source key set is rejected, the cache falls back to the base
language, and the target language stays un-cached.  On the code, a model
response parsing to `{"zzz": "hola"}` — key set disjoint from
`UI_STRINGS_EN`'s — is accepted: `perform_translation` returns it, caches
it under `"Español"`, and the Gemini call count is 1 with no fallback. -/
theorem C2_key_set_counterexample :
    (perform_translation (fun _ => some "Sure! \x7b\"zzz\": \"hola\"\x7d ok")
        "Español" initTransState).2.1.translations.lookup "Español" =
      some [("zzz", "hola")] ∧
    (perform_translation (fun _ => some "Sure! \x7b\"zzz\": \"hola\"\x7d ok")
        "Español" initTransState).1 = [("zzz", "hola")] ∧
    [("zzz", "hola")].map Prod.fst ≠ UI_STRINGS_EN.map Prod.fst :=
  ⟨by decide, by decide, by decide⟩

/-- C2 as amended: `translate_dict_via_gemini` performs no key-set
validation — for an uncached target language, any model response whose
extracted `{...}` span parses as a JSON object is returned, stored in the
translation cache under that language and used, whatever its key set; the
fallback to the base-language value (leaving the language un-cached and
resetting the current language to English) occurs exactly when the model
call or the JSON extraction raises. -/
theorem C2_no_key_set_validation_amended :
    ∀ (gemini : String → Option String) (lang : String) (st : TransState),
      st.translations.lookup lang = none →
      (∀ d, translate_dict_via_gemini gemini
          ((st.translations.lookup "English").getD UI_STRINGS_EN) lang = some d →
        (perform_translation gemini lang st).1 = d ∧
        (perform_translation gemini lang st).2.1.translations.lookup lang = some d) ∧
      (translate_dict_via_gemini gemini
          ((st.translations.lookup "English").getD UI_STRINGS_EN) lang = none →
        (perform_translation gemini lang st).1 =
          (st.translations.lookup "English").getD UI_STRINGS_EN ∧
        (perform_translation gemini lang st).2.1.translations = st.translations ∧
        (perform_translation gemini lang st).2.1.current_lang = "English") := by
  intro g lang st h
  constructor
  · intro d hd
    unfold perform_translation
    rw [h]
    dsimp only
    rw [hd]
    dsimp only
    refine ⟨rfl, ?_⟩
    rw [lookup_append_right _ _ _ h]
    simp [List.lookup]
  · intro hd
    unfold perform_translation
    rw [h]
    dsimp only
    rw [hd]
    exact ⟨rfl, rfl, rfl⟩

/-- Witness for C2's amended fallback branch: a raising model call at the
initial state falls back to English and leaves the cache unchanged. -/
theorem C2_no_key_set_validation_amended_witness :
    (perform_translation (fun _ => none) "Español" initTransState).1 =
      (initTransState.translations.lookup "English").getD UI_STRINGS_EN ∧
    (perform_translation (fun _ => none) "Español" initTransState).2.1.translations =
      initTransState.translations ∧
    (perform_translation (fun _ => none) "Español" initTransState).2.1.current_lang =
      "English" :=
  (C2_no_key_set_validation_amended (fun _ => none) "Español" initTransState
    (by decide)).2 rfl

/-! ## Claims C5, C6 -/

/-- C5 counterexample: the claim says the substitute used when column-name
translation fails is the base-language value, i.e. the original column
names.  On the code the substitute is each name prefixed with
`Translated_`, which differs from the originals. -/
theorem C5_column_fallback_counterexample :
    translate_columns (fun _ => none) ["Title", "Link"] "Español" =
      ["Translated_Title", "Translated_Link"] ∧
    (["Translated_Title", "Translated_Link"] : List String) ≠ ["Title", "Link"] :=
  ⟨rfl, by decide⟩

/-- C5 as amended: when `translate_list_via_gemini` raises (model failure or
unparseable response), the value used as a substitute for the column names
is each original name prefixed with the literal `Translated_` — not the
original untranslated names. -/
theorem C5_column_fallback_amended :
    ∀ (gemini : String → Option String) (original_cols : List String) (lang : String),
      translate_list_via_gemini gemini original_cols lang = none →
      translate_columns gemini original_cols lang =
        original_cols.map (fun item => "Translated_" ++ item) := by
  intro g cols lang h
  unfold translate_columns
  rw [h]

/-- Witness for the amended C5 at a concrete failing translation. -/
theorem C5_column_fallback_amended_witness :
    translate_columns (fun _ => none) ["Title"] "Deutsch" =
      (["Title"].map (fun item => "Translated_" ++ item)) :=
  C5_column_fallback_amended (fun _ => none) ["Title"] "Deutsch" rfl

/-- C6 counterexample: the claim says the summary-cache identity is derived
from the row index plus the unique catalog identifier, so two distinct rows
never share an entry.  On the code the key is `f"summary_{idx}"` with `idx`
the index in the filtered results: two different rows appearing at index 0
of two different filtered result sets produce the same key. -/
theorem C6_summary_key_counterexample :
    summary_key 0 ⟨"Microgravity effects on bone", "https://a.example/1"⟩ =
      summary_key 0 ⟨"Radiation and immune response", "https://b.example/2"⟩ ∧
    (⟨"Microgravity effects on bone", "https://a.example/1"⟩ : CatalogRow) ≠
      ⟨"Radiation and immune response", "https://b.example/2"⟩ :=
  ⟨rfl, by decide⟩

/-- C6 as amended: the summary-cache key for a catalog row is
`"summary_" ++ idx` for the row's index in the current filtered results —
it contains no catalog identifier, no style tag and nothing of the row
itself, so any two rows at equal filtered index share a key; for uploaded
documents the key is `"pdf_summary_" ++ file name`. -/
theorem C6_summary_key_amended :
    ∀ (idx : Nat) (r r' : CatalogRow),
      summary_key idx r = summary_key idx r' ∧
      summary_key idx r = "summary_" ++ toString idx ∧
      ∀ name, pdf_summary_key name = "pdf_summary_" ++ name :=
  fun _ _ _ => ⟨rfl, rfl, fun _ => rfl⟩

/-! ## Claim C7 -/

/-- C7 counterexample: on `"x {} y {} z"` the first balanced span is `{}`,
which parses as a JSON object, yet `extract_json_from_text` fails — because
the code slices from the first `{` to the last `}` (here `{} {}`, not a
JSON document) instead of locating the first balanced span as claimed. -/
theorem C7_first_balanced_span_counterexample :
    extract_json_from_text ("x \x7b\x7d y \x7b\x7d z".data) = none ∧
    firstBalancedSpan ("x \x7b\x7d y \x7b\x7d z".data) = some ("\x7b\x7d".data) ∧
    json_loads_obj ("\x7b\x7d".data) = some [] :=
  ⟨by decide, by decide, by decide⟩

/-- Character search distributes over an occurrence-free left part. -/
theorem findChar_append_of_forall_ne (ch : Char) (a b : List Char)
    (h : ∀ c ∈ a, c ≠ ch) :
    findChar ch (a ++ b) = (findChar ch b).map (· + a.length) := by
  induction a with
  | nil =>
    cases hb : findChar ch b <;> simp [hb]
  | cons x xs ih =>
    have ih' := ih (fun c hc => h c (by simp [hc]))
    rw [List.cons_append]
    rw [show findChar ch (x :: (xs ++ b)) =
      if x = ch then some 0 else (findChar ch (xs ++ b)).map (· + 1) from rfl]
    rw [if_neg (h x (by simp)), ih']
    cases hb : findChar ch b <;> simp
    omega

/-- C7 as amended: `extract_json_from_text` slices the response from the
first `{` to the last `}` and parses that slice as a JSON document (the
list analogue does the same with `[` and `]`).  A response wrapping a single
JSON object in prose or code fences parses successfully provided the
leading prose contains no `{` and the trailing prose no `}`; a response
containing a second object after the first balanced span fails, as the
counterexample shows. -/
theorem C7_extract_json_amended :
    ∀ (pre body post : List Char),
      (∀ c ∈ pre, c ≠ '{') → (∀ c ∈ post, c ≠ '}') →
      body.head? = some '{' → body.getLast? = some '}' →
      extract_json_from_text (pre ++ body ++ post) = json_loads_obj body := by
  intro pre body post hpre hpost hh hl
  obtain ⟨b0, bt, rfl⟩ : ∃ b0 bt, body = b0 :: bt := by
    cases body with
    | nil => simp at hh
    | cons b0 bt => exact ⟨b0, bt, rfl⟩
  have hb0 : b0 = '{' := by simpa using hh
  have hfind : findChar '{' (pre ++ (b0 :: bt) ++ post) = some pre.length := by
    rw [List.append_assoc, findChar_append_of_forall_ne _ _ _ hpre]
    subst hb0
    rw [show findChar '{' (('{' :: bt) ++ post) = some 0 from by
      rw [List.cons_append]
      rw [show findChar '{' ('{' :: (bt ++ post)) =
        if '{' = '{' then some 0 else (findChar '{' (bt ++ post)).map (· + 1) from rfl]
      simp]
    simp
  obtain ⟨rt, hrev⟩ : ∃ rt, (b0 :: bt).reverse = '}' :: rt := by
    have hrv := List.head?_reverse (b0 :: bt)
    rw [hl] at hrv
    cases hc : (b0 :: bt).reverse with
    | nil => rw [hc] at hrv; simp at hrv
    | cons c t =>
      rw [hc] at hrv
      simp at hrv
      exact ⟨t, by rw [hrv]⟩
  have hrfind : rfindChar '}' (pre ++ (b0 :: bt) ++ post) =
      some (pre.length + (b0 :: bt).length - 1) := by
    unfold rfindChar
    have hrw : (pre ++ (b0 :: bt) ++ post).reverse =
        post.reverse ++ ((b0 :: bt).reverse ++ pre.reverse) := by
      simp [List.reverse_append, List.append_assoc]
    rw [hrw, findChar_append_of_forall_ne _ _ _
      (fun c hc => hpost c (List.mem_reverse.mp hc))]
    rw [hrev]
    rw [show findChar '}' (('}' :: rt) ++ pre.reverse) = some 0 from by
      rw [List.cons_append]
      rw [show findChar '}' ('}' :: (rt ++ pre.reverse)) =
        if '}' = '}' then some 0 else (findChar '}' (rt ++ pre.reverse)).map (· + 1) from rfl]
      simp]
    simp
    omega
  unfold extract_json_from_text
  rw [hfind, hrfind]
  dsimp only
  have he1 : pre.length + (b0 :: bt).length - 1 + 1 = pre.length + (b0 :: bt).length := by
    simp
    omega
  rw [he1]
  have htake : ((pre ++ (b0 :: bt)) ++ post).take (pre.length + (b0 :: bt).length) =
      pre ++ (b0 :: bt) := by
    have hplen : (pre ++ (b0 :: bt)).length = pre.length + (b0 :: bt).length := by simp
    rw [← hplen, List.take_left]
  rw [htake, List.drop_left]

/-- Witness for the amended C7: a JSON object wrapped in prose on both
sides is sliced out and parsed. -/
theorem C7_extract_json_amended_witness :
    extract_json_from_text
        ("Sure! ".data ++ "\x7b\"a\": \"b\"\x7d".data ++ " done".data) =
      json_loads_obj ("\x7b\"a\": \"b\"\x7d".data) ∧
    json_loads_obj ("\x7b\"a\": \"b\"\x7d".data) = some [("a", "b")] :=
  ⟨C7_extract_json_amended _ _ _ (by decide) (by decide) (by decide) (by decide),
    by decide⟩

/-! ## Claim C8 -/

/-- C8: for every fetched document, text extracted on the HTML branch of
`fetch_url_text` is truncated to at most 25,000 characters; text extracted
on the PDF branch is the untruncated newline-join of the non-empty page
texts, and can exceed any bound (third conjunct: for every `n` there is a
PDF fetch whose result is longer than `n`). -/
theorem C8_truncation_asymmetry :
    (∀ (net : String → NetResult) (url ct : String)
      (pdfPages : Except String (List String)) (body : String),
      net url = NetResult.resp ct pdfPages (Except.ok body) →
      is_pdf_branch ct url = false →
      (fetch_url_text net url).length ≤ 25000) ∧
    (∀ (net : String → NetResult) (url ct : String) (pages : List String)
      (htmlBody : Except String String),
      net url = NetResult.resp ct (Except.ok pages) htmlBody →
      is_pdf_branch ct url = true →
      fetch_url_text net url = pyJoin "\n" (pages.filter (fun p => p ≠ ""))) ∧
    (∀ n : Nat, ∃ (net : String → NetResult) (url : String),
      (∃ ct pdfPages htmlBody, net url = NetResult.resp ct pdfPages htmlBody ∧
        is_pdf_branch ct url = true) ∧
      (fetch_url_text net url).length > n) := by
  refine ⟨?_, ?_, ?_⟩
  · intro net url ct pdfPages body hnet hbr
    unfold fetch_url_text
    rw [hnet]
    dsimp only
    rw [hbr]
    rw [if_neg (by simp)]
    show (html_clean body).length ≤ 25000
    show ((pyJoin " " (pySplitWsWords body)).data.take 25000).length ≤ 25000
    exact List.length_take_le _ _
  · intro net url ct pages htmlBody hnet hbr
    unfold fetch_url_text
    rw [hnet]
    dsimp only
    rw [hbr]
    rw [if_pos rfl]
  · intro n
    refine ⟨fun _ => NetResult.resp "application/pdf"
      (Except.ok [String.mk (List.replicate (n + 1) 'a')]) (Except.ok ""),
      "https://x.example/doc", ⟨"application/pdf", _, _, rfl, by decide⟩, ?_⟩
    unfold fetch_url_text
    dsimp only
    rw [show is_pdf_branch "application/pdf" "https://x.example/doc" = true from by decide]
    rw [if_pos rfl]
    have hne : String.mk (List.replicate (n + 1) 'a') ≠ "" := by
      intro hcontra
      have := congrArg (fun s => s.data.length) hcontra
      simp at this
    rw [show ([String.mk (List.replicate (n + 1) 'a')].filter (fun p => p ≠ "")) =
      [String.mk (List.replicate (n + 1) 'a')] from by simp [List.filter, hne]]
    show (String.mk (List.replicate (n + 1) 'a')).length > n
    show (List.replicate (n + 1) 'a').length > n
    simp

/-- Witness for C8's HTML-branch bound at a concrete HTML fetch. -/
theorem C8_truncation_asymmetry_witness :
    (fetch_url_text
        (fun _ => NetResult.resp "text/html" (Except.ok [])
          (Except.ok "hello world"))
        "https://x.example/page").length ≤ 25000 :=
  C8_truncation_asymmetry.1 _ "https://x.example/page" "text/html"
    (Except.ok []) "hello world" rfl (by decide)
